import Mathlib

/-!
Verification development for the SupplyGraph A2A SDK protocol-translation core.

The Python source is embedded shallowly:

* Python/JSON values are modelled by the inductive type `JVal`; Python dicts
  by association lists `JDict` (keys are strings, first binding wins, matching
  Python dict semantics for the dicts the code constructs).
* Pure Python functions become Lean functions.  Code that can raise a Python
  runtime error on degenerate inputs (e.g. calling `.get` on a non-dict, or
  using an unhashable value as a dict key) is modelled in the `Option` monad,
  `none` standing for a raised Python exception.
* `time.time()` is modelled by an explicit `now : Nat` parameter.
* Strings are processed as `List Char`, mirroring Python `str` semantics
  (`strip`, prefix tests, joining) with structural recursion.
-/

/-- JSON-like values, modelling the Python values that flow through the SDK:
`None`, booleans, integers, strings, lists and dicts. -/
inductive JVal where
  | jnull
  | jbool (b : Bool)
  | jnum (n : Int)
  | jstr (s : String)
  | jarr (xs : List JVal)
  | jobj (fields : List (String × JVal))
  deriving Repr

/-- A Python dict with string keys, as an association list (first binding wins). -/
abbrev JDict := List (String × JVal)

/-- Python `d.get(k, dflt)`: the stored value (even if `None`) when the key is
present, otherwise the default. -/
def dGetD (d : JDict) (k : String) (dflt : JVal) : JVal :=
  match d.lookup k with
  | some v => v
  | none => dflt

/-- Python `d.get(k)`: the stored value when present, else `None`. -/
def dGet (d : JDict) (k : String) : JVal := dGetD d k .jnull

/-- Python `k in d` for a dict. -/
def dHasKey (d : JDict) (k : String) : Bool := (d.lookup k).isSome

/-- Python `d[k] = v`: replace the binding in place when the key exists,
otherwise append it (insertion order is preserved, as for Python dicts). -/
def dSet (d : JDict) (k : String) (v : JVal) : JDict :=
  if dHasKey d k then d.map (fun kv => if kv.1 = k then (k, v) else kv)
  else d ++ [(k, v)]

/-- Python `d.update(e)` for dicts: set every binding of `e` in `d`. -/
def dUpdate (d e : JDict) : JDict := e.foldl (fun acc kv => dSet acc kv.1 kv.2) d

/-- Python truthiness of a value (`bool(v)`). -/
def pyTruthy : JVal → Bool
  | .jnull => false
  | .jbool b => b
  | .jnum n => n != 0
  | .jstr s => s ≠ ""
  | .jarr xs => !xs.isEmpty
  | .jobj fs => !fs.isEmpty

/-- Python `a or b`. -/
def pyOr (a b : JVal) : JVal := if pyTruthy a then a else b

/-- Requires that a value is a dict; `none` models the `AttributeError` /
`TypeError` Python raises when dict operations hit a non-dict. -/
def asDict : JVal → Option JDict
  | .jobj fs => some fs
  | _ => none

mutual
/-- Python `repr(v)` for the embedded values (used by `str` on containers). -/
def pyRepr : JVal → String
  | .jnull => "None"
  | .jbool true => "True"
  | .jbool false => "False"
  | .jnum n => toString n
  | .jstr s => "'" ++ s ++ "'"
  | .jarr xs => "[" ++ pyReprList xs ++ "]"
  | .jobj fs => "\x7b" ++ pyReprFields fs ++ "\x7d"

/-- Comma-separated `repr` of list elements. -/
def pyReprList : List JVal → String
  | [] => ""
  | [x] => pyRepr x
  | x :: y :: xs => pyRepr x ++ ", " ++ pyReprList (y :: xs)

/-- Comma-separated `repr` of dict entries. -/
def pyReprFields : List (String × JVal) → String
  | [] => ""
  | [(k, v)] => "'" ++ k ++ "': " ++ pyRepr v
  | (k, v) :: y :: xs => "'" ++ k ++ "': " ++ pyRepr v ++ ", " ++ pyReprFields (y :: xs)
end

/-- Python `str(v)`: identity on strings, `True`/`False`/`None` for atoms,
`repr`-style rendering for containers. -/
def pyStr : JVal → String
  | .jstr s => s
  | v => pyRepr v

/-! ## `status_map.py` — SupplyGraph → OpenAI status mapping -/

/-- Codes that correspond to an `in_progress` run status (`SG_STATUS_IN_PROGRESS`). -/
def SG_STATUS_IN_PROGRESS : List String :=
  ["INTERPRETING", "TASK_ACCEPTED", "TASK_RUNNING", "THINKING"]

/-- Codes that require further user input (`SG_STATUS_REQUIRES_ACTION`). -/
def SG_STATUS_REQUIRES_ACTION : List String := ["WAITING_USER"]

/-- Codes for a successfully completed task (`SG_STATUS_COMPLETED`). -/
def SG_STATUS_COMPLETED : List String := ["TASK_COMPLETED"]

/-- Codes for a failed task or hard error (`SG_STATUS_FAILED`). -/
def SG_STATUS_FAILED : List String :=
  ["TASK_FAILED", "INVALID_REQUEST", "UNAUTHORIZED", "INSUFFICIENT_CREDITS",
   "INVALID_INTENT", "RATE_LIMITED", "TARGET_UNAVAILABLE", "TIMEOUT"]

/-- Codes representing cancellation (`SG_STATUS_CANCELLED`). -/
def SG_STATUS_CANCELLED : List String := ["TASK_CANCELLED"]

/-- The forward mapping table `SG_TO_OPENAI_STATUS`, built exactly as in
`status_map.py` by inserting each code set with its OpenAI status. -/
def SG_TO_OPENAI_STATUS : List (String × String) :=
  SG_STATUS_IN_PROGRESS.map (fun c => (c, "in_progress"))
    ++ SG_STATUS_REQUIRES_ACTION.map (fun c => (c, "requires_action"))
    ++ SG_STATUS_COMPLETED.map (fun c => (c, "completed"))
    ++ SG_STATUS_FAILED.map (fun c => (c, "failed"))
    ++ SG_STATUS_CANCELLED.map (fun c => (c, "cancelled"))

/-- The gateway's known status vocabulary: the keys of `SG_TO_OPENAI_STATUS`. -/
def sgKnownCodes : List String := SG_TO_OPENAI_STATUS.map Prod.fst

/-- The five OpenAI run-status values. -/
def openaiStatuses : List String :=
  ["in_progress", "requires_action", "completed", "failed", "cancelled"]

/-- Function `map_sg_to_openai` of `status_map.py`: falsy (empty) codes and
codes outside the table default to `in_progress`. -/
def map_sg_to_openai (code : String) : String :=
  if code = "" then "in_progress"
  else ((SG_TO_OPENAI_STATUS.lookup code).getD "in_progress")

/-- Applying `map_sg_to_openai` to an arbitrary value, as the adapters do:
falsy values (None, "", 0, empty containers) default to `in_progress`, other
hashable non-strings miss the table and also default; a truthy list or dict
is unhashable and raises `TypeError` in Python (modelled as `none`). -/
def map_sg_code (code : JVal) : Option String :=
  if pyTruthy code = false then some "in_progress"
  else match code with
    | .jstr s => some (map_sg_to_openai s)
    | .jarr _ => none
    | .jobj _ => none
    | _ => some "in_progress"

/-! ## `utils/content_extractor.py` — shared content normalization -/

/-- Python `v == s` for a string literal `s`: true exactly when `v` is that
string (no Python value of another embedded type equals a string). -/
def jeqStr (v : JVal) (s : String) : Bool :=
  match v with
  | .jstr t => t = s
  | _ => false

/-- Function `extract_output_from_sg_content`: normalizes a gateway
`data.content` value into the OpenAI output block shape. -/
def extract_output_from_sg_content (content : JVal) : JVal :=
  match content with
  | .jnull => .jnull
  | .jstr s => .jobj [("type", .jstr "text"), ("content", .jstr s)]
  | .jobj fs =>
      if jeqStr (dGet fs "type") "result" then
        .jobj [("type", .jstr "json"), ("content", dGetD fs "data" (.jobj []))]
      else
        .jobj [("type", .jstr "json"), ("content", .jobj fs)]
  | v => .jobj [("type", .jstr "text"), ("content", .jstr (pyStr v))]

/-! ## `utils/extensions_builder.py` -/

/-- Whether a value is Python `None`. -/
def isNull : JVal → Bool
  | .jnull => true
  | _ => false

/-- Function `build_sg_extensions`: copy the allow-listed fields from the
envelope's data/metadata blocks, drop `None` entries, and wrap the result as
`{extensions: {supplygraph: ...}}`. -/
def build_sg_extensions (sg_data sg_metadata : JDict) : JDict :=
  let ext : JDict :=
    [("stage", dGet sg_data "stage"), ("code", dGet sg_data "code"),
     ("progress", dGet sg_data "progress"), ("timestamp", dGet sg_data "timestamp"),
     ("agent", dGet sg_data "agent"), ("is_final", dGet sg_data "is_final"),
     ("credits_used", dGet sg_metadata "credits_used")]
  let ext := ext.filter (fun kv => !isNull kv.2)
  [("extensions", .jobj [("supplygraph", .jobj ext)])]

/-! ## `run_adapter.py` — `OpenAIA2ARunAdapter` -/

/-- Method `_extract_input` of the run adapter (the `data` argument is the
`sg.get("data", {}) or {}` dict the method recomputes). -/
def run_extract_input (data : JDict) : JVal :=
  let inp : JDict := if dHasKey data "input" then [("text", dGet data "input")] else []
  let inp :=
    match dGet data "extra" with
    | .jobj extra => extra.foldl (fun acc kv => if dHasKey acc kv.1 then acc else acc ++ [kv]) inp
    | _ => inp
  if inp.isEmpty then .jnull else .jobj inp

/-- Method `_extract_metadata` of the run adapter. -/
def run_extract_metadata (sg : JDict) (sg_meta : JDict) : JVal :=
  let md : JDict := if dHasKey sg "message" then [("message", dGet sg "message")] else []
  let md := ["agent", "timestamp", "version"].foldl
    (fun acc key => if dHasKey sg_meta key then acc ++ [(key, dGet sg_meta key)] else acc) md
  if md.isEmpty then .jnull else .jobj md

/-- Method `_build_output_block` of the run adapter: output only for
`completed` / `requires_action`, via the shared content normalization;
a falsy (None) normalization result yields `None`. -/
def run_build_output_block (openai_status : String) (sg_data : JDict) : JVal :=
  let content := dGet sg_data "content"
  if !(openai_status == "completed" || openai_status == "requires_action") then .jnull
  else
    let output := extract_output_from_sg_content content
    if !pyTruthy output then .jnull else output

/-- Method `_build_required_action` of the run adapter. -/
def run_build_required_action (sg : JDict) (data : JDict) : JVal :=
  let content := dGet data "content"
  let message := pyOr (dGet sg "message") (.jstr "")
  let text_message : JVal :=
    match content with
    | .jstr s => .jstr s
    | .jobj fs => if dHasKey fs "prompt" then dGet fs "prompt" else .jnull
    | _ => .jnull
  let text_message :=
    if !pyTruthy text_message then
      pyOr message (.jstr "Additional user input is required to continue this task.")
    else text_message
  .jobj [("type", .jstr "awaiting_user"), ("message", text_message)]

/-- Method `_build_last_error` of the run adapter. -/
def run_build_last_error (sg : JDict) : JVal :=
  .jobj [("code", dGet sg "code"), ("message", dGetD sg "message" (.jstr "An error occurred."))]

/-- Method `to_openai_run` of `OpenAIA2ARunAdapter`.  `now` models
`now_timestamp()`; `none` models a raised Python exception (non-dict `data`
or `metadata`, unhashable `code`). -/
def to_openai_run (agent_id : String) (now : Nat) (sg_result : JDict) : Option JDict := do
  let sg_code := pyOr (dGet sg_result "code") (.jstr "")
  let sg_data ← asDict (pyOr (dGetD sg_result "data" (.jobj [])) (.jobj []))
  let sg_meta ← asDict (pyOr (dGetD sg_result "metadata" (.jobj [])) (.jobj []))
  let openai_status ← map_sg_code sg_code
  let task_id := pyOr (dGet sg_data "task_id")
    (pyOr (dGet sg_result "task_id") (.jstr ("sg_task_" ++ toString now)))
  let run_obj : JDict :=
    [("id", task_id), ("object", .jstr "agent.run"), ("agent_id", .jstr agent_id),
     ("status", .jstr openai_status), ("created_at", .jnum (Int.ofNat now)),
     ("input", run_extract_input sg_data),
     ("output", .jnull), ("required_action", .jnull), ("last_error", .jnull),
     ("metadata", run_extract_metadata sg_result sg_meta)]
  let run_obj := dUpdate run_obj (build_sg_extensions sg_data sg_meta)
  let run_obj := dSet run_obj "output" (run_build_output_block openai_status sg_data)
  let run_obj := if openai_status = "requires_action" then
      dSet run_obj "required_action" (run_build_required_action sg_result sg_data)
    else run_obj
  let run_obj := if openai_status = "failed" then
      dSet run_obj "last_error" (run_build_last_error sg_result)
    else run_obj
  return run_obj

/-! ## `status_adapter.py` — `OpenAIA2AStatusAdapter` -/

/-- Method `_convert_steps`: convert `intermediate_steps` into normalized step
objects; `none` models the Python error on a truthy non-list value or on
non-dict elements. -/
def status_convert_steps (now : Nat) (sg_data : JDict) : Option JVal := do
  let sg_steps := dGetD sg_data "intermediate_steps" (.jarr [])
  if pyTruthy sg_steps = false then return .jarr []
  match sg_steps with
  | .jarr xs =>
      let out ← xs.mapM (fun step => do
        let d ← asDict step
        return JVal.jobj [("type", dGetD d "type" (.jstr "reasoning")),
          ("content", dGetD d "content" (.jstr "")),
          ("timestamp", .jnum (Int.ofNat now))])
      return .jarr out
  | _ => none

/-- Method `_extract_metadata` of the status adapter. -/
def status_extract_metadata (sg : JDict) (sg_meta : JDict) : JVal :=
  let md : JDict := if dHasKey sg "message" then [("message", dGet sg "message")] else []
  let md := ["agent", "timestamp", "credits_used"].foldl
    (fun acc key => if dHasKey sg_meta key then acc ++ [(key, dGet sg_meta key)] else acc) md
  if md.isEmpty then .jnull else .jobj md

/-- Method `_build_output_block` of the status adapter: only `completed` and
`requires_action` include output. -/
def status_build_output_block (openai_status : String) (sg_data : JDict) : JVal :=
  if !(openai_status == "completed" || openai_status == "requires_action") then .jnull
  else extract_output_from_sg_content (dGet sg_data "content")

/-- Method `_build_required_action` of the status adapter. -/
def status_build_required_action (sg : JDict) (data : JDict) : JVal :=
  let content := dGet data "content"
  let message := dGetD sg "message" (.jstr "")
  let prompt : JVal :=
    match content with
    | .jstr s => .jstr s
    | .jobj fs =>
        if dHasKey fs "prompt" then dGet fs "prompt"
        else pyOr message (.jstr "Additional user input is required.")
    | _ => pyOr message (.jstr "Additional user input is required.")
  .jobj [("type", .jstr "awaiting_user"), ("message", prompt)]

/-- Method `_build_last_error` of the status adapter. -/
def status_build_last_error (sg : JDict) : JVal :=
  .jobj [("code", dGet sg "code"), ("message", dGetD sg "message" (.jstr "Task failed."))]

/-- Method `to_openai_status` of `OpenAIA2AStatusAdapter`. -/
def to_openai_status (agent_id : String) (now : Nat) (sg_status : JDict) : Option JDict := do
  let sg_code := dGetD sg_status "code" (.jstr "")
  let sg_data ← asDict (pyOr (dGetD sg_status "data" (.jobj [])) (.jobj []))
  let sg_meta ← asDict (pyOr (dGetD sg_status "metadata" (.jobj [])) (.jobj []))
  let openai_status ← map_sg_code sg_code
  let task_id := pyOr (dGet sg_data "task_id")
    (pyOr (dGet sg_status "task_id") (.jstr ("sg_task_" ++ toString now)))
  let steps ← status_convert_steps now sg_data
  let status_obj : JDict :=
    [("id", task_id), ("object", .jstr "agent.run.status"), ("agent_id", .jstr agent_id),
     ("status", .jstr openai_status), ("created_at", .jnum (Int.ofNat now)),
     ("steps", steps),
     ("output", status_build_output_block openai_status sg_data),
     ("required_action", .jnull), ("last_error", .jnull),
     ("metadata", status_extract_metadata sg_status sg_meta)]
  let status_obj := dUpdate status_obj (build_sg_extensions sg_data sg_meta)
  let status_obj := if openai_status = "requires_action" then
      dSet status_obj "required_action" (status_build_required_action sg_status sg_data)
    else status_obj
  let status_obj := if openai_status = "failed" then
      dSet status_obj "last_error" (status_build_last_error sg_status)
    else status_obj
  return status_obj

/-! ## `results_adapter.py` — `OpenAIA2AResultsAdapter` -/

/-- Method `_extract_metadata` of the results adapter. -/
def results_extract_metadata (sg : JDict) (sg_meta : JDict) : JVal :=
  let md : JDict := if dHasKey sg "message" then [("message", dGet sg "message")] else []
  let md := ["timestamp", "credits_used", "agent"].foldl
    (fun acc key => if dHasKey sg_meta key then acc ++ [(key, dGet sg_meta key)] else acc) md
  if md.isEmpty then .jnull else .jobj md

/-- Method `_build_last_error` of the results adapter (includes `details`). -/
def results_build_last_error (sg : JDict) : JVal :=
  .jobj [("code", dGet sg "code"), ("message", dGetD sg "message" (.jstr "Task failed.")),
         ("details", dGet sg "errors")]

/-- Method `_build_required_action` of the results adapter. -/
def results_build_required_action (sg : JDict) (data : JDict) : JVal :=
  let content := dGet data "content"
  let message := dGetD sg "message" (.jstr "")
  let prompt : JVal :=
    match content with
    | .jstr s => .jstr s
    | .jobj fs =>
        if dHasKey fs "prompt" then dGet fs "prompt"
        else pyOr message (.jstr "Additional user input is required.")
    | _ => pyOr message (.jstr "Additional user input is required.")
  .jobj [("type", .jstr "awaiting_user"), ("message", prompt)]

/-- Method `to_openai_result` of `OpenAIA2AResultsAdapter`: output is attached
only for `completed`; `failed` attaches `last_error`; `requires_action`
attaches `required_action` (but no output). -/
def to_openai_result (agent_id : String) (now : Nat) (sg_result : JDict) : Option JDict := do
  let sg_code := dGetD sg_result "code" (.jstr "")
  let sg_data ← asDict (pyOr (dGetD sg_result "data" (.jobj [])) (.jobj []))
  let sg_meta ← asDict (pyOr (dGetD sg_result "metadata" (.jobj [])) (.jobj []))
  let openai_status ← map_sg_code sg_code
  let task_id := pyOr (dGet sg_data "task_id")
    (pyOr (dGet sg_result "task_id") (.jstr ("sg_task_" ++ toString now)))
  let result_obj : JDict :=
    [("id", task_id), ("object", .jstr "agent.run.result"), ("agent_id", .jstr agent_id),
     ("status", .jstr openai_status), ("created_at", .jnum (Int.ofNat now)),
     ("output", .jnull), ("required_action", .jnull), ("last_error", .jnull),
     ("metadata", results_extract_metadata sg_result sg_meta)]
  let result_obj := dUpdate result_obj (build_sg_extensions sg_data sg_meta)
  let result_obj :=
    if openai_status = "completed" then
      dSet result_obj "output" (extract_output_from_sg_content (dGet sg_data "content"))
    else if openai_status = "failed" then
      dSet result_obj "last_error" (results_build_last_error sg_result)
    else if openai_status = "requires_action" then
      dSet result_obj "required_action" (results_build_required_action sg_result sg_data)
    else result_obj
  return result_obj

/-! ## `utils/stream_parser.py` — SSE decoder

String handling is done over `List Char` so that everything computes by
structural recursion.  `json.loads` is modelled by a small JSON parser for
the null/bool/integer/string/array/object fragment (floats and `\u` escapes
are outside the model); parse failure yields `none`, and the decoder then
falls back to the raw string exactly as the Python code does. -/

/-- Whitespace characters recognised by Python `str.strip()`. -/
def isPySpace (c : Char) : Bool :=
  c = ' ' || c = '\t' || c = '\n' || c = '\x0d' || c = '\x0b' || c = '\x0c'

/-- Python `s.strip()` on a character list. -/
def pyStripList (l : List Char) : List Char :=
  ((l.dropWhile isPySpace).reverse.dropWhile isPySpace).reverse

/-- Python `s.strip()`. -/
def pyStrip (s : String) : String := ⟨pyStripList s.toList⟩

/-- JSON whitespace. -/
def isJsonWs (c : Char) : Bool := c = ' ' || c = '\t' || c = '\n' || c = '\x0d'

/-- Skip JSON whitespace. -/
def skipWs (l : List Char) : List Char := l.dropWhile isJsonWs

/-- Consume an expected keyword tail, one character at a time. -/
def dropLit : List Char → List Char → Option (List Char)
  | [], rest => some rest
  | p :: ps, c :: cs => if c = p then dropLit ps cs else none
  | _ :: _, [] => none

/-- Translate one JSON escape character (the basic escapes of the model). -/
def jsonUnescChar (e : Char) : Option Char :=
  if e = '"' then some '"'
  else if e = '\\' then some '\\'
  else if e = '/' then some '/'
  else if e = 'n' then some '\n'
  else if e = 't' then some '\t'
  else if e = 'r' then some '\x0d'
  else none

/-- Parse the remainder of a JSON string literal (after the opening quote),
supporting the basic escapes. -/
def parseJStrAux : List Char → List Char → Option (String × List Char)
  | [], _ => none
  | c :: rest, acc =>
      if c = '"' then some (⟨acc.reverse⟩, rest)
      else if c = '\\' then
        match rest with
        | [] => none
        | e :: rest2 =>
            match jsonUnescChar e with
            | some ch => parseJStrAux rest2 (ch :: acc)
            | none => none
      else parseJStrAux rest (c :: acc)

/-- Digits to a natural number. -/
def natOfDigits (ds : List Char) : Nat :=
  ds.foldl (fun n c => 10 * n + (c.toNat - '0'.toNat)) 0

/-- Parse a nonempty run of decimal digits. -/
def parseDigits (l : List Char) : Option (Nat × List Char) :=
  let ds := l.takeWhile Char.isDigit
  if ds.isEmpty then none
  else some (natOfDigits ds, l.drop ds.length)

mutual
/-- Parse one JSON value (fuel-bounded recursion). -/
def parseJVal : Nat → List Char → Option (JVal × List Char)
  | 0, _ => none
  | fuel + 1, l =>
    match skipWs l with
    | [] => none
    | c :: rest =>
        if c = 'n' then (dropLit ['u', 'l', 'l'] rest).map (fun r => (.jnull, r))
        else if c = 't' then (dropLit ['r', 'u', 'e'] rest).map (fun r => (.jbool true, r))
        else if c = 'f' then (dropLit ['a', 'l', 's', 'e'] rest).map (fun r => (.jbool false, r))
        else if c = '"' then (parseJStrAux rest []).map (fun p => (.jstr p.1, p.2))
        else if c = '[' then
          match skipWs rest with
          | ']' :: r2 => some (.jarr [], r2)
          | _ => parseJArr fuel rest []
        else if c = '\x7b' then
          match skipWs rest with
          | '\x7d' :: r2 => some (.jobj [], r2)
          | _ => parseJObj fuel rest []
        else if c = '-' then (parseDigits rest).map (fun p => (.jnum (-(p.1 : Int)), p.2))
        else if c.isDigit then (parseDigits (c :: rest)).map (fun p => (.jnum (p.1 : Int), p.2))
        else none

/-- Parse the elements of a JSON array (after the opening bracket). -/
def parseJArr : Nat → List Char → List JVal → Option (JVal × List Char)
  | 0, _, _ => none
  | fuel + 1, l, acc =>
      match parseJVal fuel l with
      | none => none
      | some (v, rest) =>
        match skipWs rest with
        | [] => none
        | c :: r2 =>
            if c = ',' then parseJArr fuel r2 (v :: acc)
            else if c = ']' then some (.jarr (v :: acc).reverse, r2)
            else none

/-- Parse the members of a JSON object (after the opening brace). -/
def parseJObj : Nat → List Char → List (String × JVal) → Option (JVal × List Char)
  | 0, _, _ => none
  | fuel + 1, l, acc =>
      match skipWs l with
      | '"' :: rest =>
        (match parseJStrAux rest [] with
         | none => none
         | some (k, r1) =>
           match skipWs r1 with
           | ':' :: r2 =>
             (match parseJVal fuel r2 with
              | none => none
              | some (v, r3) =>
                match skipWs r3 with
                | [] => none
                | c :: r4 =>
                    if c = ',' then parseJObj fuel r4 ((k, v) :: acc)
                    else if c = '\x7d' then some (.jobj ((k, v) :: acc).reverse, r4)
                    else none)
           | _ => none)
      | _ => none
end

/-- Model of `json.loads`: parse a complete document, requiring the whole
input to be consumed. -/
def json_loads (s : String) : Option JVal :=
  let l := s.toList
  match parseJVal (l.length + 1) l with
  | some (v, rest) => if (skipWs rest).isEmpty then some v else none
  | none => none

/-- A decoded SSE event, the dict `{event: ..., data: ...}` yielded by
`parse_sse` (the JSON-parse fallback stores the raw string as `.jstr`). -/
structure SSEvent where
  event : String
  data : JVal
  deriving Repr

/-- Split a character stream at newline characters. -/
def splitOnNL : List Char → List (List Char)
  | [] => [[]]
  | '\n' :: rest => [] :: splitOnNL rest
  | c :: rest =>
      match splitOnNL rest with
      | seg :: segs => (c :: seg) :: segs
      | [] => [[c]]

/-- Model of `response.iter_lines(decode_unicode=True)`: the newline-separated
lines of the byte stream, without a trailing empty segment. -/
def iter_lines (s : String) : List String :=
  let segs := splitOnNL s.toList
  let segs := if segs.getLast? = some [] then segs.dropLast else segs
  segs.map (fun l => (⟨l⟩ : String))

/-- Python `"\n".join(buffer)`. -/
def joinNL : List String → String
  | [] => ""
  | [x] => x
  | x :: y :: xs => x ++ "\n" ++ joinNL (y :: xs)

/-- The loop body of `parse_sse`, threading the current event type and data
buffer.  The result pairs the yielded events with the source items NOT read:
on the `[DONE]` sentinel the generator returns immediately, leaving the rest
of the source unconsumed; at source exhaustion any buffered data lines are
discarded. -/
def parse_sse_go : List (Option String) → String → List String → List SSEvent × List (Option String)
  | [], _, _ => ([], [])
  | none :: rest, event_type, data_buffer => parse_sse_go rest event_type data_buffer
  | some raw_line :: rest, event_type, data_buffer =>
    let line := pyStrip raw_line
    if line = "" then
      if !data_buffer.isEmpty then
        let payload_str := pyStrip (joinNL data_buffer)
        if payload_str = "[DONE]" then
          ([⟨"end", .jstr "[DONE]"⟩], rest)
        else
          let payload :=
            match json_loads payload_str with
            | some v => v
            | none => .jstr payload_str
          let res := parse_sse_go rest event_type []
          (⟨event_type, payload⟩ :: res.1, res.2)
      else parse_sse_go rest event_type data_buffer
    else if "event:".toList.isPrefixOf line.toList then
      parse_sse_go rest (pyStrip ⟨line.toList.drop 6⟩) data_buffer
    else if "data:".toList.isPrefixOf line.toList then
      parse_sse_go rest event_type (data_buffer ++ [pyStrip ⟨line.toList.drop 5⟩])
    else
      parse_sse_go rest event_type (data_buffer ++ [pyStrip line])

/-- Function `parse_sse` of `stream_parser.py`, over the line sequence of the
source (a `none` item models `iter_lines` yielding `None`, which the code
skips).  Initial event type is `"stream"`, initial buffer empty. -/
def parse_sse (lines : List (Option String)) : List SSEvent × List (Option String) :=
  parse_sse_go lines "stream" []

/-! ## `reasoning_sse_adapter.py` — `OpenAIA2AReasoningSSEAdapter`

The adapter is embedded in two layers: `wrap_stream_frames` produces the
frames as structured values (`RFrame` mirrors the dict bodies the Python code
builds), and `wrap_stream` renders each frame to the exact SSE text the
Python generator yields.  `time.time()` is modelled by the constant `now`
parameter. -/

/-- A re-emitted OpenAI reasoning frame: the structured body of one yielded
SSE text block. -/
inductive RFrame where
  | delta (line : String) (index : Nat) (delta_index : Nat) (timestamp : Nat)
  | step (lines : List String) (index : Nat) (timestamp : Nat)
  | completed (timestamp : Nat)
  deriving Repr, DecidableEq

/-- Method `_extract_reasoning_lines`: a direct `reasoning` list on the
payload, else a nested `data.reasoning` list, else nothing; elements are
passed through `str`. -/
def extract_reasoning_lines (payload : JVal) : List String :=
  match payload with
  | .jobj fs =>
    (match dGet fs "reasoning" with
     | .jarr xs => xs.map pyStr
     | _ =>
       match dGet fs "data" with
       | .jobj ds =>
         (match dGet ds "reasoning" with
          | .jarr ys => ys.map pyStr
          | _ => [])
       | _ => [])
  | _ => []

/-- One `step.delta` frame per reasoning line, at the given step index,
with consecutively increasing global delta indexes. -/
def deltaFrames (now step_index : Nat) : Nat → List String → List RFrame
  | _, [] => []
  | delta_index, l :: ls =>
      .delta l step_index delta_index now :: deltaFrames now step_index (delta_index + 1) ls

/-- The generator loop inside `wrap_stream`, threading `step_index` and
`delta_index`.  The `end` sentinel breaks out of the loop; non-`stream`
events and events without reasoning lines are skipped; the final `completed`
frame is emitted unconditionally when the loop ends. -/
def wrap_stream_frames_go (now : Nat) : List SSEvent → Nat → Nat → List RFrame
  | [], _, _ => [.completed now]
  | e :: rest, step_index, delta_index =>
      if e.event = "end" then [.completed now]
      else if e.event ≠ "stream" then wrap_stream_frames_go now rest step_index delta_index
      else
        let reasoning_lines := extract_reasoning_lines e.data
        if reasoning_lines.isEmpty then wrap_stream_frames_go now rest step_index delta_index
        else
          deltaFrames now step_index delta_index reasoning_lines
            ++ [.step reasoning_lines step_index now]
            ++ wrap_stream_frames_go now rest (step_index + 1) (delta_index + reasoning_lines.length)

/-- Method `wrap_stream`, structured layer: counters start at 0. -/
def wrap_stream_frames (now : Nat) (evts : List SSEvent) : List RFrame :=
  wrap_stream_frames_go now evts 0 0

/-- JSON string escaping as `json.dumps` does for the characters in the model
(`ensure_ascii=False`). -/
def jsonEscChar (c : Char) : List Char :=
  if c = '"' then ['\\', '"']
  else if c = '\\' then ['\\', '\\']
  else if c = '\n' then ['\\', 'n']
  else if c = '\t' then ['\\', 't']
  else if c = '\x0d' then ['\\', 'r']
  else [c]

/-- Escape and quote a string for `json.dumps`. -/
def jsonQuote (s : String) : String :=
  ⟨'"' :: s.toList.foldr (fun c acc => jsonEscChar c ++ acc) ['"']⟩

mutual
/-- Model of `json.dumps(v, ensure_ascii=False)` with Python's default
separators (`", "` and `": "`). -/
def jsonDumps : JVal → String
  | .jnull => "null"
  | .jbool true => "true"
  | .jbool false => "false"
  | .jnum n => toString n
  | .jstr s => jsonQuote s
  | .jarr xs => "[" ++ jsonDumpsList xs ++ "]"
  | .jobj fs => "\x7b" ++ jsonDumpsFields fs ++ "\x7d"

/-- Comma-separated dump of array elements. -/
def jsonDumpsList : List JVal → String
  | [] => ""
  | [x] => jsonDumps x
  | x :: y :: xs => jsonDumps x ++ ", " ++ jsonDumpsList (y :: xs)

/-- Comma-separated dump of object members. -/
def jsonDumpsFields : List (String × JVal) → String
  | [] => ""
  | [(k, v)] => jsonQuote k ++ ": " ++ jsonDumps v
  | (k, v) :: y :: xs => jsonQuote k ++ ": " ++ jsonDumps v ++ ", " ++ jsonDumpsFields (y :: xs)
end

/-- The SSE event name of a frame. -/
def frameName : RFrame → String
  | .delta _ _ _ _ => "step.delta"
  | .step _ _ _ => "step"
  | .completed _ => "completed"

/-- The dict body the Python code builds for each frame. -/
def frameBody : RFrame → JVal
  | .delta l i d t =>
      .jobj [("delta", .jobj [("thinking", .jstr l)]), ("index", .jnum (Int.ofNat i)),
             ("delta_index", .jnum (Int.ofNat d)), ("timestamp", .jnum (Int.ofNat t))]
  | .step ls i t =>
      .jobj [("step", .jobj [("thinking", .jarr (ls.map .jstr))]), ("index", .jnum (Int.ofNat i)),
             ("timestamp", .jnum (Int.ofNat t))]
  | .completed t =>
      .jobj [("status", .jstr "completed"), ("timestamp", .jnum (Int.ofNat t))]

/-- Method `_format_sse`: one two-line text block terminated by a blank line. -/
def format_sse (event : String) (body : JVal) : String :=
  "event: " ++ event ++ "\ndata: " ++ jsonDumps body ++ "\n\n"

/-- Method `wrap_stream`, text layer: the raw SSE strings the generator
yields. -/
def wrap_stream (now : Nat) (evts : List SSEvent) : List String :=
  (wrap_stream_frames now evts).map (fun f => format_sse (frameName f) (frameBody f))

/-! ## `client/agent_client.py` — the retry core of `AgentClient`

The non-streaming path of `_request_with_retry` is embedded as a recursion
over the loop iterations.  The transport is a function from the attempt
number (1-based) to that attempt's outcome; sleeping is modelled by
returning the list of slept durations.  `float()`-parsing of the
`Retry-After` header is abstracted by `RetryAfterHdr` (a parseable value, or
a present-but-unparseable/falsy header, or no header). -/

/-- Business codes deliberately not treated as errors (`A2A_NON_FATAL_CODES`). -/
def A2A_NON_FATAL_CODES : List String := ["WAITING_USER", "INTERPRETING"]

/-- Business codes raised as errors (`A2A_FATAL_CODES`). -/
def A2A_FATAL_CODES : List String :=
  ["INVALID_REQUEST", "UNAUTHORIZED", "TASK_FAILED", "TASK_CANCELLED"]

/-- The client configuration fields the retry core reads. -/
structure ClientConfig where
  max_retries : Nat
  backoff_factor : ℚ

/-- The `Retry-After` header of a response, as seen through `float()`. -/
inductive RetryAfterHdr where
  | absent
  | unparseable (s : String)
  | value (q : ℚ)
  deriving Repr

/-- One HTTP response from the transport.  `jsonBody = none` models a body
on which `response.json()` raises. -/
structure HttpResponse where
  status_code : Nat
  jsonBody : Option JVal
  retry_after : RetryAfterHdr
  text : String
  deriving Repr

/-- The outcome of one `requests.request` call: a raised
`requests.RequestException`, or a response. -/
inductive Outcome where
  | exn (msg : String)
  | resp (r : HttpResponse)

/-- The `SupplyGraphAPIError` of `utils/error_handler.py`. -/
structure SupplyGraphAPIError where
  message : JVal
  http_status : Option Nat
  api_code : JVal
  errors : JVal
  payload : JVal
  deriving Repr

/-- The result of `_request_with_retry`: the returned payload, a raised
`SupplyGraphAPIError`, or a Python-level crash (`.get` on a non-dict JSON
body). -/
inductive ReqResult where
  | ok (data : JVal)
  | raised (e : SupplyGraphAPIError)
  | pyError
  deriving Repr

/-- Method `_should_retry`: `status in (None, 429) or (status >= 500)`. -/
def should_retry (status : Option Nat) : Bool :=
  match status with
  | none => true
  | some n => n == 429 || n ≥ 500

/-- Method `_get_retry_delay`.  The `if response:` test uses
`requests.Response.__bool__`, which is `status_code < 400` — so for the
error responses the retry loop passes here, the `Retry-After` branch is
never taken. -/
def get_retry_delay (backoff_factor : ℚ) (attempt : Nat) (response : Option HttpResponse) : ℚ :=
  match response with
  | some r =>
    if r.status_code < 400 then
      match r.retry_after with
      | .value q => q
      | _ => backoff_factor * 2 ^ (attempt - 1)
    else backoff_factor * 2 ^ (attempt - 1)
  | none => backoff_factor * 2 ^ (attempt - 1)

/-- Python `code in A2A_FATAL_CODES` for an arbitrary value. -/
def codeIsFatal (code : JVal) : Bool :=
  match code with
  | .jstr s => A2A_FATAL_CODES.contains s
  | _ => false

/-- The loop body of `_request_with_retry` (non-streaming).  `attempt` is the
1-based loop variable, `remaining` the number of loop iterations left
(`max_retries - attempt + 1` at every call), `last_error` the saved error.
The second component collects the `time.sleep` durations in order. -/
def request_loop (cfg : ClientConfig) (url : String) (transport : Nat → Outcome) :
    Nat → Nat → Option SupplyGraphAPIError → ReqResult × List ℚ
  | _, 0, last_error =>
    (match last_error with
     | some e => (.raised e, [])
     | none => (.raised ⟨.jstr "Unknown error after retries", none, .jnull, .jnull, .jobj []⟩, []))
  | attempt, remaining + 1, _ =>
    match transport attempt with
    | .exn msg =>
        let error : SupplyGraphAPIError :=
          ⟨.jstr ("Network error calling " ++ url ++ ": " ++ msg), none, .jnull, .jnull, .jobj []⟩
        if attempt ≥ cfg.max_retries then (.raised error, [])
        else
          let rest := request_loop cfg url transport (attempt + 1) remaining (some error)
          (rest.1, get_retry_delay cfg.backoff_factor attempt none :: rest.2)
    | .resp r =>
        match r.jsonBody with
        | none =>
            let error : SupplyGraphAPIError :=
              ⟨.jstr "Response is not valid JSON", some r.status_code, .jnull, .jnull,
               .jobj [("raw", .jstr r.text)]⟩
            if should_retry (some r.status_code) && attempt < cfg.max_retries then
              let rest := request_loop cfg url transport (attempt + 1) remaining (some error)
              (rest.1, get_retry_delay cfg.backoff_factor attempt (some r) :: rest.2)
            else (.raised error, [])
        | some data =>
            match data with
            | .jobj d =>
                if r.status_code ≥ 400 then
                  (.raised ⟨dGetD d "message" (.jstr "HTTP error"), some r.status_code,
                            dGet d "code", dGet d "errors", .jobj d⟩, [])
                else
                  let success := dGetD d "success" (.jbool true)
                  let code := dGet d "code"
                  if !pyTruthy success && codeIsFatal code then
                    (.raised ⟨dGetD d "message" (.jstr ""), some r.status_code,
                              code, dGet d "errors", .jobj d⟩, [])
                  else (.ok (.jobj d), [])
            | _ => (.pyError, [])

/-- Method `_request_with_retry` for a non-streaming call: run the loop from
attempt 1 with `max_retries` iterations available. -/
def request_with_retry (cfg : ClientConfig) (url : String) (transport : Nat → Outcome) :
    ReqResult × List ℚ :=
  request_loop cfg url transport 1 cfg.max_retries none

/-! ## Derived notions used by the verified properties -/

/-- Python `obj["status"] == s` for a normalized object. -/
def statusIs (obj : JDict) (s : String) : Bool := jeqStr (dGet obj "status") s

/-- The output gating invariant of the spec, for one normalized object:
a non-null `output` implies status `completed` or `requires_action`, a
non-null `required_action` implies status `requires_action`, and a non-null
`last_error` implies status `failed`. -/
def output_gating (obj : JDict) : Prop :=
  (dGet obj "output" ≠ .jnull → (statusIs obj "completed" || statusIs obj "requires_action") = true) ∧
  (dGet obj "required_action" ≠ .jnull → statusIs obj "requires_action" = true) ∧
  (dGet obj "last_error" ≠ .jnull → statusIs obj "failed" = true)

/-- Whether a frame is the terminal `completed` frame. -/
def isCompleted : RFrame → Bool
  | .completed _ => true
  | _ => false

/-- The reasoning-line batches the re-emitter forwards: one batch per
`stream` event with a nonempty extracted reasoning list, cut off at the
`end` sentinel. -/
def reasoningBatches : List SSEvent → List (List String)
  | [] => []
  | e :: rest =>
      if e.event = "end" then []
      else if e.event ≠ "stream" then reasoningBatches rest
      else
        let L := extract_reasoning_lines e.data
        if L.isEmpty then reasoningBatches rest else L :: reasoningBatches rest

/-- The canonical frame sequence for a list of batches: for each batch, its
delta frames (one per line, with the running global delta index) followed by
its consolidated step frame, with the step index increasing by one per batch. -/
def renderBlocks (now : Nat) : List (List String) → Nat → Nat → List RFrame
  | [], _, _ => []
  | b :: bs, si, di =>
      deltaFrames now si di b ++ .step b si now :: renderBlocks now bs (si + 1) (di + b.length)

/-- A transport that answers HTTP 503 with a valid JSON body on attempts 1
and 2 and succeeds on attempt 3. -/
def t503JsonBody : Nat → Outcome := fun attempt =>
  if attempt ≤ 2 then .resp ⟨503, some (.jobj []), .absent, "servererr"⟩
  else .resp ⟨200, some (.jobj [("success", .jbool true), ("code", .jstr "TASK_ACCEPTED")]), .absent, "ok"⟩

/-- A transport that answers HTTP 503 with a non-JSON body (and a parseable
`Retry-After` header) on attempts 1 and 2 and succeeds on attempt 3. -/
def t503NonJson : Nat → Outcome := fun attempt =>
  if attempt ≤ 2 then .resp ⟨503, none, .value 99, "Service Unavailable"⟩
  else .resp ⟨200, some (.jobj [("success", .jbool true), ("code", .jstr "TASK_ACCEPTED")]), .absent, "ok"⟩

/-- A transport whose first attempt yields an HTTP 200 response with a
`success:false, code:WAITING_USER` body. -/
def tWaitingUser : Nat → Outcome := fun _ =>
  .resp ⟨200, some (.jobj [("success", .jbool false), ("code", .jstr "WAITING_USER"),
         ("message", .jstr "need input")]), .absent, "ok"⟩

/-- A transport whose first attempt yields an HTTP 200 response with a
`success:false, code:TASK_FAILED` body. -/
def tTaskFailed : Nat → Outcome := fun _ =>
  .resp ⟨200, some (.jobj [("success", .jbool false), ("code", .jstr "TASK_FAILED"),
         ("message", .jstr "boom")]), .absent, "ok"⟩

/-- The envelope exhibiting the output divergence between the run/status
adapters and the results adapter: `WAITING_USER` with string content. -/
def exWaitingEnvelope : JDict :=
  [("success", .jbool false), ("code", .jstr "WAITING_USER"),
   ("message", .jstr "User input needed."),
   ("data", .jobj [("task_id", .jstr "t_wait"), ("content", .jstr "hi")])]

/-- The run object produced for `exWaitingEnvelope` (at `now = 0`). -/
def exRunObj : JDict :=
  [("id", .jstr "t_wait"), ("object", .jstr "agent.run"), ("agent_id", .jstr "a"),
   ("status", .jstr "requires_action"), ("created_at", .jnum 0), ("input", .jnull),
   ("output", .jobj [("type", .jstr "text"), ("content", .jstr "hi")]),
   ("required_action", .jobj [("type", .jstr "awaiting_user"), ("message", .jstr "hi")]),
   ("last_error", .jnull),
   ("metadata", .jobj [("message", .jstr "User input needed.")]),
   ("extensions", .jobj [("supplygraph", .jobj [])])]

/-- The status object produced for `exWaitingEnvelope` (at `now = 0`). -/
def exStatusObj : JDict :=
  [("id", .jstr "t_wait"), ("object", .jstr "agent.run.status"), ("agent_id", .jstr "a"),
   ("status", .jstr "requires_action"), ("created_at", .jnum 0), ("steps", .jarr []),
   ("output", .jobj [("type", .jstr "text"), ("content", .jstr "hi")]),
   ("required_action", .jobj [("type", .jstr "awaiting_user"), ("message", .jstr "hi")]),
   ("last_error", .jnull),
   ("metadata", .jobj [("message", .jstr "User input needed.")]),
   ("extensions", .jobj [("supplygraph", .jobj [])])]

/-- The result object produced for `exWaitingEnvelope` (at `now = 0`):
its `output` stays null. -/
def exResultObj : JDict :=
  [("id", .jstr "t_wait"), ("object", .jstr "agent.run.result"), ("agent_id", .jstr "a"),
   ("status", .jstr "requires_action"), ("created_at", .jnum 0), ("output", .jnull),
   ("required_action", .jobj [("type", .jstr "awaiting_user"), ("message", .jstr "hi")]),
   ("last_error", .jnull),
   ("metadata", .jobj [("message", .jstr "User input needed.")]),
   ("extensions", .jobj [("supplygraph", .jobj [])])]

/-- C2: for every code in the gateway's known status vocabulary the mapping
returns one of the five lifecycle values, and every string outside the
vocabulary (including the empty string, which is falsy) maps to
`in_progress`. -/
theorem C2_total_status_mapping :
    (∀ c ∈ sgKnownCodes, map_sg_to_openai c ∈ openaiStatuses) ∧
    (∀ s : String, s ∉ sgKnownCodes → map_sg_to_openai s = "in_progress") := by
  refine ⟨by decide, ?_⟩
  intro s hs
  simp [sgKnownCodes, SG_TO_OPENAI_STATUS, SG_STATUS_IN_PROGRESS, SG_STATUS_REQUIRES_ACTION,
    SG_STATUS_COMPLETED, SG_STATUS_FAILED, SG_STATUS_CANCELLED] at hs
  obtain ⟨h1, h2, h3, h4, h5, h6, h7, h8, h9, h10, h11, h12, h13, h14, h15⟩ := hs
  have hf : ∀ k : String, ¬s = k → (s == k) = false := fun k hk => beq_eq_false_iff_ne.mpr hk
  by_cases he : s = ""
  · simp [map_sg_to_openai, he]
  · simp [map_sg_to_openai, he, SG_TO_OPENAI_STATUS, SG_STATUS_IN_PROGRESS,
      SG_STATUS_REQUIRES_ACTION, SG_STATUS_COMPLETED, SG_STATUS_FAILED, SG_STATUS_CANCELLED,
      List.lookup, hf _ h1, hf _ h2, hf _ h3, hf _ h4, hf _ h5, hf _ h6, hf _ h7, hf _ h8,
      hf _ h9, hf _ h10, hf _ h11, hf _ h12, hf _ h13, hf _ h14, hf _ h15]

/-- Closed witness for C2: a concrete unknown code maps to `in_progress`. -/
theorem C2_total_status_mapping_witness :
    "BOGUS_CODE" ∉ sgKnownCodes ∧ map_sg_to_openai "BOGUS_CODE" = "in_progress" :=
  ⟨by decide, C2_total_status_mapping.2 "BOGUS_CODE" (by decide)⟩

/-- C8: the shared content normalization maps a string to a text block, a
dict tagged `result` to a json block holding its `data`, any other dict to a
json block holding the dict itself, `None` to `None`, and any other non-null
value to a text block holding its `str()`. -/
theorem C8_content_normalization :
    (∀ s : String, extract_output_from_sg_content (.jstr s) =
        .jobj [("type", .jstr "text"), ("content", .jstr s)]) ∧
    (∀ (d : JDict) (inner : JVal), dGet d "type" = .jstr "result" → d.lookup "data" = some inner →
        extract_output_from_sg_content (.jobj d) = .jobj [("type", .jstr "json"), ("content", inner)]) ∧
    (∀ d : JDict, jeqStr (dGet d "type") "result" = false →
        extract_output_from_sg_content (.jobj d) = .jobj [("type", .jstr "json"), ("content", .jobj d)]) ∧
    extract_output_from_sg_content .jnull = .jnull ∧
    (∀ v : JVal, isNull v = false → (∀ s, v ≠ .jstr s) → (∀ fs, v ≠ .jobj fs) →
        extract_output_from_sg_content v = .jobj [("type", .jstr "text"), ("content", .jstr (pyStr v))]) := by
  refine ⟨fun s => rfl, ?_, ?_, rfl, ?_⟩
  · intro d inner h1 h2
    simp [extract_output_from_sg_content, h1, jeqStr, dGetD, h2]
  · intro d h
    simp [extract_output_from_sg_content, h]
  · intro v hnull hstr hobj
    cases v with
    | jnull => simp [isNull] at hnull
    | jstr s => exact absurd rfl (hstr s)
    | jobj fs => exact absurd rfl (hobj fs)
    | jbool b => rfl
    | jnum n => rfl
    | jarr xs => rfl

/-- Closed witness for C8: the `result`-tagged branch at a concrete dict. -/
theorem C8_content_normalization_witness :
    dGet [("type", JVal.jstr "result"), ("data", JVal.jnum 7)] "type" = .jstr "result" ∧
    ([("type", JVal.jstr "result"), ("data", JVal.jnum 7)] : JDict).lookup "data" = some (.jnum 7) ∧
    extract_output_from_sg_content (.jobj [("type", .jstr "result"), ("data", .jnum 7)]) =
      .jobj [("type", .jstr "json"), ("content", .jnum 7)] :=
  ⟨rfl, rfl, C8_content_normalization.2.1 _ (.jnum 7) rfl rfl⟩

/-- C10: a content dict tagged `result` without a `data` key normalizes to a
json block holding the empty dict — not to `None` and not to the original
dict. -/
theorem C10_result_tag_without_data :
    ∀ d : JDict, dGet d "type" = .jstr "result" → d.lookup "data" = none →
      extract_output_from_sg_content (.jobj d) =
          .jobj [("type", .jstr "json"), ("content", .jobj [])] ∧
      extract_output_from_sg_content (.jobj d) ≠ .jnull ∧
      extract_output_from_sg_content (.jobj d) ≠ .jobj d := by
  intro d h1 h2
  have he : extract_output_from_sg_content (.jobj d) =
      .jobj [("type", .jstr "json"), ("content", .jobj [])] := by
    simp [extract_output_from_sg_content, h1, jeqStr, dGetD, h2]
  refine ⟨he, by simp [he], ?_⟩
  rw [he]
  intro hcontra
  injection hcontra with hd
  rw [← hd] at h1
  simp [dGet, dGetD, List.lookup] at h1

/-- Closed witness for C10 at the minimal `result`-tagged dict. -/
theorem C10_result_tag_without_data_witness :
    dGet [("type", JVal.jstr "result")] "type" = .jstr "result" ∧
    ([("type", JVal.jstr "result")] : JDict).lookup "data" = none ∧
    extract_output_from_sg_content (.jobj [("type", .jstr "result")]) =
      .jobj [("type", .jstr "json"), ("content", .jobj [])] :=
  ⟨rfl, rfl, (C10_result_tag_without_data [("type", .jstr "result")] rfl rfl).1⟩

/-- C6: decoding `"event: stream\ndata: \x7b\"a\":1\x7d\n\n"` yields exactly
the single event `{event: stream, data: {a: 1}}`; decoding
`"data: [DONE]\n\n"` yields exactly the synthetic end event and leaves every
following source item unread. -/
theorem C6_sse_round_trip :
    parse_sse ((iter_lines "event: stream\ndata: \x7b\"a\":1\x7d\n\n").map some) =
      ([⟨"stream", .jobj [("a", .jnum 1)]⟩], []) ∧
    (∀ extra, parse_sse (((iter_lines "data: [DONE]\n\n").map some) ++ extra) =
      ([⟨"end", .jstr "[DONE]"⟩], extra)) :=
  ⟨rfl, fun _ => rfl⟩

/-- C9: the decoder flushes only on a blank line — at source exhaustion any
buffered data lines are discarded, and a lone `data:` line with no trailing
blank line yields no events. -/
theorem C9_unflushed_buffer_discarded :
    (∀ (event_type : String) (data_buffer : List String),
        parse_sse_go [] event_type data_buffer = ([], [])) ∧
    parse_sse ((iter_lines "data: \x7b\"a\":1\x7d").map some) = ([], []) :=
  ⟨fun _ _ => rfl, rfl⟩

/-- Delta frames are never the `completed` frame. -/
lemma deltaFrames_not_completed (now si : Nat) :
    ∀ (ls : List String) (di : Nat) (f : RFrame), f ∈ deltaFrames now si di ls →
      isCompleted f = false := by
  intro ls
  induction ls with
  | nil => intro di f hf; simp [deltaFrames] at hf
  | cons l ls ih =>
      intro di f hf
      simp only [deltaFrames, List.mem_cons] at hf
      rcases hf with h | h
      · subst h; rfl
      · exact ih _ f h

/-- Rendered batch blocks never contain the `completed` frame. -/
lemma renderBlocks_not_completed (now : Nat) :
    ∀ (bs : List (List String)) (si di : Nat) (f : RFrame), f ∈ renderBlocks now bs si di →
      isCompleted f = false := by
  intro bs
  induction bs with
  | nil => intro si di f hf; simp [renderBlocks] at hf
  | cons b bs ih =>
      intro si di f hf
      simp only [renderBlocks, List.mem_append, List.mem_cons] at hf
      rcases hf with h | h | h
      · exact deltaFrames_not_completed now si b di f h
      · subst h; rfl
      · exact ih _ _ f h

/-- Structural characterization of the re-emitter: the output is the rendered
batch blocks followed by exactly one `completed` frame. -/
lemma wrap_go_eq_renderBlocks (now : Nat) :
    ∀ (evts : List SSEvent) (si di : Nat),
      wrap_stream_frames_go now evts si di =
        renderBlocks now (reasoningBatches evts) si di ++ [.completed now] := by
  intro evts
  induction evts with
  | nil => intro si di; simp [wrap_stream_frames_go, reasoningBatches, renderBlocks]
  | cons e rest ih =>
      intro si di
      by_cases h1 : e.event = "end"
      · simp [wrap_stream_frames_go, reasoningBatches, h1, renderBlocks]
      · by_cases h2 : e.event = "stream"
        · by_cases h3 : (extract_reasoning_lines e.data).isEmpty
          · simp [wrap_stream_frames_go, reasoningBatches, h1, h2, h3, ih]
          · simp [wrap_stream_frames_go, reasoningBatches, h1, h2, h3, ih, renderBlocks,
              List.append_assoc]
        · simp [wrap_stream_frames_go, reasoningBatches, h1, h2, ih]

/-- C7: the reasoning re-emitter yields, for one stream event with reasoning
lines A and B, exactly the two deltas (step 0, delta indexes 0 and 1), the
consolidated step, and the completed frame; an empty input yields exactly one
completed frame; input starting with the end sentinel ignores the rest and
yields only the completed frame; in general the output is exactly the
per-batch delta-then-step blocks (with increasing step and global delta
indexes) followed by one completed frame, which is always last and unique. -/
theorem C7_reasoning_reemitter :
    (∀ now : Nat,
       wrap_stream_frames now
           [⟨"stream", .jobj [("reasoning", .jarr [.jstr "A", .jstr "B"])]⟩] =
         [.delta "A" 0 0 now, .delta "B" 0 1 now, .step ["A", "B"] 0 now, .completed now]) ∧
    (∀ now : Nat, wrap_stream_frames now [] = [.completed now]) ∧
    (∀ (now : Nat) (d : JVal) (rest : List SSEvent),
       wrap_stream_frames now (⟨"end", d⟩ :: rest) = [.completed now]) ∧
    (∀ (now : Nat) (evts : List SSEvent),
       wrap_stream_frames now evts =
         renderBlocks now (reasoningBatches evts) 0 0 ++ [.completed now]) ∧
    (∀ (now : Nat) (evts : List SSEvent),
       ((wrap_stream_frames now evts).filter isCompleted).length = 1 ∧
       (wrap_stream_frames now evts).getLast? = some (.completed now)) := by
  refine ⟨fun now => rfl, fun now => rfl, fun now d rest => rfl,
    fun now evts => wrap_go_eq_renderBlocks now evts 0 0, fun now evts => ?_⟩
  rw [wrap_stream_frames, wrap_go_eq_renderBlocks now evts 0 0]
  constructor
  · rw [List.filter_append]
    have hnil : (renderBlocks now (reasoningBatches evts) 0 0).filter isCompleted = [] := by
      rw [List.filter_eq_nil_iff]
      intro f hf
      simp [renderBlocks_not_completed now (reasoningBatches evts) 0 0 f hf]
    rw [hnil]
    rfl
  · exact List.getLast?_concat _

/-- The run adapter's output block is non-null only for `completed` or
`requires_action`. -/
lemma run_build_output_block_gate (st : String) (sg_data : JDict) :
    run_build_output_block st sg_data ≠ .jnull → st = "completed" ∨ st = "requires_action" := by
  unfold run_build_output_block
  cases hcb : (st == "completed" || st == "requires_action") with
  | false => simp
  | true => intro _; simpa using hcb

/-- The status adapter's output block is non-null only for `completed` or
`requires_action`. -/
lemma status_build_output_block_gate (st : String) (sg_data : JDict) :
    status_build_output_block st sg_data ≠ .jnull → st = "completed" ∨ st = "requires_action" := by
  unfold status_build_output_block
  cases hcb : (st == "completed" || st == "requires_action") with
  | false => simp
  | true => intro _; simpa using hcb

/-- A guarded value is non-null only when its guard holds. -/
lemma ite_jnull_gate (p : Prop) [Decidable p] (v : JVal) :
    (if p then v else .jnull) ≠ .jnull → p := by
  by_cases h : p <;> simp [h]

/-- The output gating invariant follows from the values of the four fields. -/
lemma gating_of_fields (obj : JDict) (st : String) (outv rav lev : JVal)
    (hstatus : dGet obj "status" = .jstr st)
    (hout : dGet obj "output" = outv)
    (houtGate : outv ≠ .jnull → st = "completed" ∨ st = "requires_action")
    (hra : dGet obj "required_action" = rav)
    (hraGate : rav ≠ .jnull → st = "requires_action")
    (hle : dGet obj "last_error" = lev)
    (hleGate : lev ≠ .jnull → st = "failed") :
    output_gating obj := by
  unfold output_gating statusIs
  rw [hstatus, hout, hra, hle]
  refine ⟨fun hne => ?_, fun hne => ?_, fun hne => ?_⟩
  · rcases houtGate hne with h | h <;> simp [jeqStr, h]
  · simp [jeqStr, hraGate hne]
  · simp [jeqStr, hleGate hne]

/-- Field computation for every object the run adapter produces. -/
lemma to_openai_run_fields (agent_id : String) (now : Nat) (sg obj : JDict)
    (h : to_openai_run agent_id now sg = some obj) :
    ∃ (sg_data : JDict) (st : String),
      asDict (pyOr (dGetD sg "data" (.jobj [])) (.jobj [])) = some sg_data ∧
      map_sg_code (pyOr (dGet sg "code") (.jstr "")) = some st ∧
      dGet obj "status" = .jstr st ∧
      dGet obj "output" = run_build_output_block st sg_data ∧
      dGet obj "required_action" =
        (if st = "requires_action" then run_build_required_action sg sg_data else .jnull) ∧
      dGet obj "last_error" = (if st = "failed" then run_build_last_error sg else .jnull) := by
  unfold to_openai_run at h
  obtain ⟨sg_data, hd, h⟩ := Option.bind_eq_some.mp h
  obtain ⟨sg_meta, hm, h⟩ := Option.bind_eq_some.mp h
  obtain ⟨st, hst, h⟩ := Option.bind_eq_some.mp h
  simp only [Option.pure_def, Option.some.injEq] at h
  subst h
  refine ⟨sg_data, st, hd, hst, ?_, ?_, ?_, ?_⟩ <;>
    (by_cases hra : st = "requires_action"
     · subst hra
       simp [dUpdate, build_sg_extensions, dSet, dHasKey, dGet, dGetD, List.lookup]
     · by_cases hfa : st = "failed"
       · subst hfa
         simp [dUpdate, build_sg_extensions, dSet, dHasKey, dGet, dGetD, List.lookup]
       · simp [hra, hfa, dUpdate, build_sg_extensions, dSet, dHasKey, dGet, dGetD, List.lookup])

/-- Field computation for every object the status adapter produces. -/
lemma to_openai_status_fields (agent_id : String) (now : Nat) (sg obj : JDict)
    (h : to_openai_status agent_id now sg = some obj) :
    ∃ (sg_data : JDict) (st : String),
      asDict (pyOr (dGetD sg "data" (.jobj [])) (.jobj [])) = some sg_data ∧
      map_sg_code (dGetD sg "code" (.jstr "")) = some st ∧
      dGet obj "status" = .jstr st ∧
      dGet obj "output" = status_build_output_block st sg_data ∧
      dGet obj "required_action" =
        (if st = "requires_action" then status_build_required_action sg sg_data else .jnull) ∧
      dGet obj "last_error" = (if st = "failed" then status_build_last_error sg else .jnull) := by
  unfold to_openai_status at h
  obtain ⟨sg_data, hd, h⟩ := Option.bind_eq_some.mp h
  obtain ⟨sg_meta, hm, h⟩ := Option.bind_eq_some.mp h
  obtain ⟨st, hst, h⟩ := Option.bind_eq_some.mp h
  obtain ⟨steps, hsteps, h⟩ := Option.bind_eq_some.mp h
  simp only [Option.pure_def, Option.some.injEq] at h
  subst h
  refine ⟨sg_data, st, hd, hst, ?_, ?_, ?_, ?_⟩ <;>
    (by_cases hra : st = "requires_action"
     · subst hra
       simp [dUpdate, build_sg_extensions, dSet, dHasKey, dGet, dGetD, List.lookup]
     · by_cases hfa : st = "failed"
       · subst hfa
         simp [dUpdate, build_sg_extensions, dSet, dHasKey, dGet, dGetD, List.lookup]
       · simp [hra, hfa, dUpdate, build_sg_extensions, dSet, dHasKey, dGet, dGetD, List.lookup])

/-- Field computation for every object the results adapter produces. -/
lemma to_openai_result_fields (agent_id : String) (now : Nat) (sg obj : JDict)
    (h : to_openai_result agent_id now sg = some obj) :
    ∃ (sg_data : JDict) (st : String),
      asDict (pyOr (dGetD sg "data" (.jobj [])) (.jobj [])) = some sg_data ∧
      map_sg_code (dGetD sg "code" (.jstr "")) = some st ∧
      dGet obj "status" = .jstr st ∧
      dGet obj "output" =
        (if st = "completed" then extract_output_from_sg_content (dGet sg_data "content")
         else .jnull) ∧
      dGet obj "required_action" =
        (if st = "requires_action" then results_build_required_action sg sg_data else .jnull) ∧
      dGet obj "last_error" = (if st = "failed" then results_build_last_error sg else .jnull) := by
  unfold to_openai_result at h
  obtain ⟨sg_data, hd, h⟩ := Option.bind_eq_some.mp h
  obtain ⟨sg_meta, hm, h⟩ := Option.bind_eq_some.mp h
  obtain ⟨st, hst, h⟩ := Option.bind_eq_some.mp h
  simp only [Option.pure_def, Option.some.injEq] at h
  subst h
  refine ⟨sg_data, st, hd, hst, ?_, ?_, ?_, ?_⟩ <;>
    (by_cases hco : st = "completed"
     · subst hco
       simp [dUpdate, build_sg_extensions, dSet, dHasKey, dGet, dGetD, List.lookup]
     · by_cases hfa : st = "failed"
       · subst hfa
         simp [dUpdate, build_sg_extensions, dSet, dHasKey, dGet, dGetD, List.lookup]
       · by_cases hra : st = "requires_action"
         · subst hra
           simp [dUpdate, build_sg_extensions, dSet, dHasKey, dGet, dGetD, List.lookup]
         · simp [hco, hfa, hra, dUpdate, build_sg_extensions, dSet, dHasKey, dGet, dGetD,
             List.lookup])

/-- C1: every object produced by any of the three normalizers satisfies the
output gating invariant: non-null `output` only with status `completed` or
`requires_action`, non-null `required_action` only with status
`requires_action`, non-null `last_error` only with status `failed`. -/
theorem C1_output_gating :
    (∀ (agent_id : String) (now : Nat) (sg obj : JDict),
        to_openai_run agent_id now sg = some obj → output_gating obj) ∧
    (∀ (agent_id : String) (now : Nat) (sg obj : JDict),
        to_openai_status agent_id now sg = some obj → output_gating obj) ∧
    (∀ (agent_id : String) (now : Nat) (sg obj : JDict),
        to_openai_result agent_id now sg = some obj → output_gating obj) := by
  refine ⟨fun a now sg obj h => ?_, fun a now sg obj h => ?_, fun a now sg obj h => ?_⟩
  · obtain ⟨sg_data, st, _, _, hs, ho, hr, hl⟩ := to_openai_run_fields a now sg obj h
    exact gating_of_fields obj st _ _ _ hs ho (run_build_output_block_gate st sg_data)
      hr (ite_jnull_gate _ _) hl (ite_jnull_gate _ _)
  · obtain ⟨sg_data, st, _, _, hs, ho, hr, hl⟩ := to_openai_status_fields a now sg obj h
    exact gating_of_fields obj st _ _ _ hs ho (status_build_output_block_gate st sg_data)
      hr (ite_jnull_gate _ _) hl (ite_jnull_gate _ _)
  · obtain ⟨sg_data, st, _, _, hs, ho, hr, hl⟩ := to_openai_result_fields a now sg obj h
    refine gating_of_fields obj st _ _ _ hs ho (fun hne => ?_) hr (ite_jnull_gate _ _)
      hl (ite_jnull_gate _ _)
    exact Or.inl (ite_jnull_gate _ _ hne)

/-- Closed witness for C1: the run adapter on the `WAITING_USER` envelope. -/
theorem C1_output_gating_witness :
    to_openai_run "a" 0 exWaitingEnvelope = some exRunObj ∧ output_gating exRunObj :=
  ⟨rfl, C1_output_gating.1 "a" 0 exWaitingEnvelope exRunObj rfl⟩

/-- Content normalization yields either `None` or a truthy two-field dict. -/
lemma extract_output_null_or_truthy (c : JVal) :
    extract_output_from_sg_content c = .jnull ∨
      pyTruthy (extract_output_from_sg_content c) = true := by
  cases c with
  | jnull => exact Or.inl rfl
  | jstr s => exact Or.inr rfl
  | jobj fs =>
      refine Or.inr ?_
      rw [show extract_output_from_sg_content (.jobj fs) =
          (if jeqStr (dGet fs "type") "result" then
            .jobj [("type", .jstr "json"), ("content", dGetD fs "data" (.jobj []))]
          else .jobj [("type", .jstr "json"), ("content", .jobj fs)]) from rfl]
      split <;> rfl
  | jbool b => exact Or.inr rfl
  | jnum n => exact Or.inr rfl
  | jarr xs => exact Or.inr rfl

/-- The run and status adapters compute identical output blocks: the run
adapter's extra falsy-check collapses to the identity because the shared
normalization returns `None` or a truthy dict. -/
lemma run_output_eq_status_output (st : String) (d : JDict) :
    run_build_output_block st d = status_build_output_block st d := by
  unfold run_build_output_block status_build_output_block
  cases hcb : (st == "completed" || st == "requires_action") with
  | false => simp
  | true =>
      simp only [hcb, Bool.not_true, Bool.false_eq_true, if_false]
      rcases extract_output_null_or_truthy (dGet d "content") with h | h <;> simp [h]

/-- The run adapter's `code or ""` preprocessing does not change the mapped
status relative to reading the code with default `""`. -/
lemma map_sg_code_or_default (sg : JDict) :
    map_sg_code (pyOr (dGet sg "code") (.jstr "")) = map_sg_code (dGetD sg "code" (.jstr "")) := by
  unfold dGet dGetD
  cases hl : sg.lookup "code" with
  | none => rfl
  | some v =>
      show map_sg_code (pyOr v (.jstr "")) = map_sg_code v
      by_cases h : pyTruthy v = true
      · rw [show pyOr v (.jstr "") = v from by simp [pyOr, h]]
      · simp only [Bool.not_eq_true] at h
        rw [show pyOr v (.jstr "") = .jstr "" from by simp [pyOr, h],
          show map_sg_code (.jstr "") = some "in_progress" from rfl]
        unfold map_sg_code
        rw [h]
        simp

/-- C5 counterexample: on the concrete `WAITING_USER` envelope with string
content, the run and status adapters attach the normalized text block as
`output` while the results adapter leaves `output` null — the three
normalizers do not agree. -/
theorem C5_counterexample_output_divergence :
    (to_openai_run "a" 0 exWaitingEnvelope).map (fun o => dGet o "output") =
      some (.jobj [("type", .jstr "text"), ("content", .jstr "hi")]) ∧
    (to_openai_status "a" 0 exWaitingEnvelope).map (fun o => dGet o "output") =
      some (.jobj [("type", .jstr "text"), ("content", .jstr "hi")]) ∧
    (to_openai_result "a" 0 exWaitingEnvelope).map (fun o => dGet o "output") = some .jnull ∧
    (JVal.jobj [("type", .jstr "text"), ("content", .jstr "hi")]) ≠ .jnull :=
  ⟨rfl, rfl, rfl, by simp⟩

/-- C5 (amended): the run and status adapters agree on `output` for every
envelope on which both succeed; the results adapter agrees with them on
every envelope whose mapped status is not `requires_action`, and on
`requires_action` results its `output` is always null (the divergent case). -/
theorem C5_amended_output_rule :
    (∀ (a b : String) (now now2 : Nat) (sg objR objS : JDict),
        to_openai_run a now sg = some objR → to_openai_status b now2 sg = some objS →
        dGet objR "output" = dGet objS "output") ∧
    (∀ (a b : String) (now now2 : Nat) (sg objR objT : JDict),
        to_openai_run a now sg = some objR → to_openai_result b now2 sg = some objT →
        dGet objT "status" ≠ .jstr "requires_action" →
        dGet objR "output" = dGet objT "output") ∧
    (∀ (a : String) (now : Nat) (sg objT : JDict),
        to_openai_result a now sg = some objT →
        dGet objT "status" = .jstr "requires_action" → dGet objT "output" = .jnull) := by
  refine ⟨?_, ?_, ?_⟩
  · intro a b now now2 sg objR objS hR hS
    obtain ⟨dR, stR, hdR, hstR, _, hoR, _, _⟩ := to_openai_run_fields a now sg objR hR
    obtain ⟨dS, stS, hdS, hstS, _, hoS, _, _⟩ := to_openai_status_fields b now2 sg objS hS
    rw [hdR] at hdS
    injection hdS with hdd
    rw [map_sg_code_or_default] at hstR
    rw [hstR] at hstS
    injection hstS with hss
    rw [hoR, hoS, ← hdd, ← hss, run_output_eq_status_output]
  · intro a b now now2 sg objR objT hR hT hne
    obtain ⟨dR, stR, hdR, hstR, _, hoR, _, _⟩ := to_openai_run_fields a now sg objR hR
    obtain ⟨dT, stT, hdT, hstT, hsT, hoT, _, _⟩ := to_openai_result_fields b now2 sg objT hT
    rw [hdR] at hdT
    injection hdT with hdd
    rw [map_sg_code_or_default] at hstR
    rw [hstR] at hstT
    injection hstT with hss
    subst hdd
    subst hss
    have hra : stR ≠ "requires_action" := by
      intro hcontra
      rw [hsT, hcontra] at hne
      exact hne rfl
    rw [hoR, hoT]
    unfold run_build_output_block
    by_cases hco : stR = "completed"
    · subst hco
      simp only [if_pos rfl]
      rcases extract_output_null_or_truthy (dGet dR "content") with h | h <;> simp [h]
    · rw [if_neg hco]
      have hgate : (stR == "completed" || stR == "requires_action") = false := by
        simp [hco, hra]
      simp [hgate]
  · intro a now sg objT hT hra
    obtain ⟨dT, stT, _, _, hsT, hoT, _, _⟩ := to_openai_result_fields a now sg objT hT
    rw [hsT] at hra
    injection hra with hss
    rw [hoT, hss]
    simp

/-- Closed witness for C5's amended statement: run and status agree on the
`WAITING_USER` envelope, and the results adapter's output there is null. -/
theorem C5_amended_output_rule_witness :
    to_openai_run "a" 0 exWaitingEnvelope = some exRunObj ∧
    to_openai_status "a" 0 exWaitingEnvelope = some exStatusObj ∧
    to_openai_result "a" 0 exWaitingEnvelope = some exResultObj ∧
    dGet exRunObj "output" = dGet exStatusObj "output" ∧
    dGet exResultObj "output" = .jnull :=
  ⟨rfl, rfl, rfl,
   C5_amended_output_rule.1 "a" "a" 0 0 exWaitingEnvelope exRunObj exStatusObj rfl rfl,
   C5_amended_output_rule.2.2 "a" 0 exWaitingEnvelope exResultObj rfl rfl⟩

/-- C3 counterexample: a transport that answers HTTP 503 twice (with valid
JSON bodies) and then succeeds does NOT lead to a retried success — the
client raises immediately on the first 503, with no sleeps, because an HTTP
error response whose body parses as JSON is raised without retry. -/
theorem C3_counterexample_json_503_not_retried :
    request_with_retry ⟨3, 1⟩ "https://agent.example/run" t503JsonBody =
      (.raised ⟨.jstr "HTTP error", some 503, .jnull, .jnull, .jobj []⟩, []) := rfl

/-- C3 (amended): retries happen only on connection failure or on a non-JSON
body with a retryable (429/5xx) HTTP status; with max_retries = 3, two
non-JSON 503 responses followed by a success return the success payload
after sleeping backoff*1 then backoff*2 — regardless of any Retry-After
header, which is never consulted for error responses (a 4xx/5xx
`requests.Response` is falsy); two connection failures behave the same; and
an HTTP ≥ 400 response with a valid JSON body raises immediately with no
retry and no sleep. -/
theorem C3_amended_retry_behavior :
    (∀ (b : ℚ) (url : String) (t : Nat → Outcome) (r1 r2 r3 : HttpResponse) (okBody : JDict),
        t 1 = .resp r1 → t 2 = .resp r2 → t 3 = .resp r3 →
        r1.status_code = 503 → r1.jsonBody = none →
        r2.status_code = 503 → r2.jsonBody = none →
        r3.status_code = 200 → r3.jsonBody = some (.jobj okBody) →
        pyTruthy (dGetD okBody "success" (.jbool true)) = true →
        request_with_retry ⟨3, b⟩ url t = (.ok (.jobj okBody), [b * 1, b * 2])) ∧
    (∀ (b : ℚ) (url : String) (t : Nat → Outcome) (m1 m2 : String) (r3 : HttpResponse)
        (okBody : JDict),
        t 1 = .exn m1 → t 2 = .exn m2 → t 3 = .resp r3 →
        r3.status_code = 200 → r3.jsonBody = some (.jobj okBody) →
        pyTruthy (dGetD okBody "success" (.jbool true)) = true →
        request_with_retry ⟨3, b⟩ url t = (.ok (.jobj okBody), [b * 1, b * 2])) ∧
    (∀ (cfg : ClientConfig) (url : String) (t : Nat → Outcome) (r : HttpResponse) (d : JDict),
        1 ≤ cfg.max_retries → t 1 = .resp r → r.jsonBody = some (.jobj d) →
        400 ≤ r.status_code →
        request_with_retry cfg url t =
          (.raised ⟨dGetD d "message" (.jstr "HTTP error"), some r.status_code,
                    dGet d "code", dGet d "errors", .jobj d⟩, [])) := by
  refine ⟨?_, ?_, ?_⟩
  · intro b url t r1 r2 r3 okBody h1 h2 h3 hs1 hj1 hs2 hj2 hs3 hj3 hsucc
    unfold request_with_retry
    simp only [request_loop, h1, h2, h3, hj1, hj2, hj3, hs1, hs2, hs3, hsucc,
      should_retry, get_retry_delay]
    norm_num
  · intro b url t m1 m2 r3 okBody h1 h2 h3 hs3 hj3 hsucc
    unfold request_with_retry
    simp only [request_loop, h1, h2, h3, hj3, hs3, hsucc, get_retry_delay]
    norm_num
  · intro cfg url t r d hmr h1 hj hs
    obtain ⟨m, hm⟩ : ∃ m, cfg.max_retries = m + 1 := ⟨cfg.max_retries - 1, by omega⟩
    unfold request_with_retry
    rw [hm]
    simp only [request_loop, h1, hj]
    rw [if_pos hs]

/-- Closed witness for C3's amended statement: the non-JSON-body 503 retry
scenario at backoff factor 1 (with a parseable Retry-After header of 99 that
is ignored). -/
theorem C3_amended_retry_behavior_witness :
    request_with_retry ⟨3, (1 : ℚ)⟩ "https://agent.example/run" t503NonJson =
      (.ok (.jobj [("success", .jbool true), ("code", .jstr "TASK_ACCEPTED")]),
       [(1 : ℚ) * 1, (1 : ℚ) * 2]) :=
  C3_amended_retry_behavior.1 1 "https://agent.example/run" t503NonJson
    ⟨503, none, .value 99, "Service Unavailable"⟩ ⟨503, none, .value 99, "Service Unavailable"⟩
    ⟨200, some (.jobj [("success", .jbool true), ("code", .jstr "TASK_ACCEPTED")]), .absent, "ok"⟩
    [("success", .jbool true), ("code", .jstr "TASK_ACCEPTED")]
    rfl rfl rfl rfl rfl rfl rfl rfl rfl rfl

/-- C4: on an HTTP-success JSON response, `success:false` with
`code:WAITING_USER` is returned as a normal payload without raising, while
`success:false` with any code in the fatal set raises a transport error
carrying that code as `api_code`, immediately and without retrying. -/
theorem C4_fatal_vs_nonfatal_codes :
    (∀ (cfg : ClientConfig) (url : String) (t : Nat → Outcome) (r : HttpResponse) (d : JDict),
        1 ≤ cfg.max_retries → t 1 = .resp r → r.jsonBody = some (.jobj d) →
        r.status_code < 400 →
        d.lookup "success" = some (.jbool false) →
        d.lookup "code" = some (.jstr "WAITING_USER") →
        request_with_retry cfg url t = (.ok (.jobj d), [])) ∧
    (∀ (cfg : ClientConfig) (url : String) (t : Nat → Outcome) (r : HttpResponse) (d : JDict)
        (c : String),
        1 ≤ cfg.max_retries → t 1 = .resp r → r.jsonBody = some (.jobj d) →
        r.status_code < 400 →
        d.lookup "success" = some (.jbool false) →
        d.lookup "code" = some (.jstr c) → c ∈ A2A_FATAL_CODES →
        request_with_retry cfg url t =
          (.raised ⟨dGetD d "message" (.jstr ""), some r.status_code, .jstr c,
                    dGet d "errors", .jobj d⟩, [])) := by
  constructor
  · intro cfg url t r d hmr h1 hj hs hsu hcode
    obtain ⟨m, hm⟩ : ∃ m, cfg.max_retries = m + 1 := ⟨cfg.max_retries - 1, by omega⟩
    unfold request_with_retry
    rw [hm]
    simp only [request_loop, h1, hj]
    rw [if_neg (by omega)]
    simp [dGetD, dGet, hsu, hcode, pyTruthy, codeIsFatal, A2A_FATAL_CODES]
  · intro cfg url t r d c hmr h1 hj hs hsu hcode hc
    obtain ⟨m, hm⟩ : ∃ m, cfg.max_retries = m + 1 := ⟨cfg.max_retries - 1, by omega⟩
    unfold request_with_retry
    rw [hm]
    simp only [request_loop, h1, hj]
    rw [if_neg (by omega)]
    have hfatal : codeIsFatal (.jstr c) = true := by
      rcases (by simpa [A2A_FATAL_CODES] using hc :
          c = "INVALID_REQUEST" ∨ c = "UNAUTHORIZED" ∨ c = "TASK_FAILED" ∨
            c = "TASK_CANCELLED") with rfl | rfl | rfl | rfl <;> rfl
    simp [dGetD, dGet, hsu, hcode, pyTruthy, hfatal]

/-- Closed witness for C4: the concrete WAITING_USER and TASK_FAILED
transports. -/
theorem C4_fatal_vs_nonfatal_codes_witness :
    request_with_retry ⟨3, 1⟩ "u" tWaitingUser =
      (.ok (.jobj [("success", .jbool false), ("code", .jstr "WAITING_USER"),
                   ("message", .jstr "need input")]), []) ∧
    request_with_retry ⟨3, 1⟩ "u" tTaskFailed =
      (.raised ⟨.jstr "boom", some 200, .jstr "TASK_FAILED", .jnull,
                .jobj [("success", .jbool false), ("code", .jstr "TASK_FAILED"),
                       ("message", .jstr "boom")]⟩, []) := by
  constructor
  · exact C4_fatal_vs_nonfatal_codes.1 ⟨3, 1⟩ "u"
      tWaitingUser ⟨200, some (.jobj [("success", .jbool false), ("code", .jstr "WAITING_USER"),
        ("message", .jstr "need input")]), .absent, "ok"⟩ _ (by decide) rfl rfl (by decide) rfl rfl
  · exact C4_fatal_vs_nonfatal_codes.2 ⟨3, 1⟩ "u"
      tTaskFailed ⟨200, some (.jobj [("success", .jbool false), ("code", .jstr "TASK_FAILED"),
        ("message", .jstr "boom")]), .absent, "ok"⟩ _ "TASK_FAILED" (by decide) rfl rfl
      (by decide) rfl rfl (by decide)
